import Mathlib

/-!
Shallow embedding of the order-book synchronization engine in
`cryptofeed/exchanges/coinbase.py` (class `Coinbase` and the module-level
helper `get_private_parameters`).

Modelling conventions:
* Python `dict`s (insertion-ordered, unique keys) are association lists
  operated on only through `alookup` / `ainsert` / `aerase` below, which
  reproduce `d.get(k)`, `d[k] = v` (update-in-place keeps position, fresh
  key appends) and `del d[k]`.
* `Decimal` values parsed off the wire are modelled as `ℚ` (exact
  precision); wire decoding itself is an external collaborator, so message
  records carry already-parsed numbers.
* `exchange_symbol_to_std_symbol` (symbol translation) is an external
  collaborator and is modelled as the identity on symbol strings.
* `hmac`/`hashlib` are external library primitives; the signer is
  parameterised by the hex-HMAC function `hmacHex : secret → message → hex`.
* `await` / timestamps-as-floats / sleeps are concurrency and real-time
  concerns; the handler is modelled as a pure state transformer that also
  returns the list of emitted callbacks and the list of issued snapshot
  fetches, and raised `KeyError`s surface as `Except.error`.
-/

deriving instance DecidableEq for Except

namespace Coinbase
/-- Lookup in an insertion-ordered association list: Python `d.get(k)`. -/
def alookup {α β : Type} [DecidableEq α] : List (α × β) → α → Option β
  | [], _ => none
  | kv :: rest, a => if kv.1 = a then some kv.2 else alookup rest a

/-- Python `d[k] = v`: replace the value at an existing key in place,
otherwise append the new binding at the end. -/
def ainsert {α β : Type} [DecidableEq α] : List (α × β) → α → β → List (α × β)
  | [], a, b => [(a, b)]
  | kv :: rest, a, b => if kv.1 = a then (a, b) :: rest else kv :: ainsert rest a b

/-- Python `del d[k]` (only ever called under a `k in d` guard in the
source); on the unique-key lists the code builds this removes the binding. -/
def aerase {α β : Type} [DecidableEq α] : List (α × β) → α → List (α × β)
  | [], _ => []
  | kv :: rest, a => if kv.1 = a then aerase rest a else kv :: aerase rest a

/-- Value stored at a price level.  Line 160 stores a plain quantity
(L2 path of `_pair_level2_update` / `_pair_level2_snapshot`); lines
193-196 of `_book_snapshot` store a nested order-id → size map (L3 path).
In Python both live in the same untyped dict, so the model tags them. -/
inductive LevelVal
  | qty (q : ℚ)
  | orders (m : List (String × ℚ))
deriving DecidableEq

/-- One side of a book: price → level value, a Python dict. -/
abbrev SideMap := List (ℚ × LevelVal)

/-- The `bids`/`asks` pair held by a `cryptofeed.types.OrderBook`.
Modelled from the spec: `OrderBook` itself lives in `cryptofeed/types`
(not in the sources in scope); per §3 it is "each a mapping from price to
quantity", created holding the given side maps verbatim, "replaced
wholesale by each snapshot; mutated in place by deltas".  Ancillary
fields (exchange id, checksum format, depth cap) are not modelled. -/
structure Book where
  bids : SideMap
  asks : SideMap
deriving DecidableEq

/-- The `BID`/`ASK` constants from `cryptofeed.defines` used to index a book. -/
inductive Side
  | bid
  | ask
deriving DecidableEq

/-- Python `self._l2_book[pair].book[side]`. -/
def Book.side (b : Book) : Side → SideMap
  | .bid => b.bids
  | .ask => b.asks

/-- Assignment to one side of a book. -/
def Book.setSide (b : Book) : Side → SideMap → Book
  | .bid, m => { b with bids := m }
  | .ask, m => { b with asks := m }

/-- Line 151: `side = BID if update['side'] == 'bid' else ASK`. -/
def sideOf (s : String) : Side :=
  if s = "bid" then .bid else .ask

/-- The `delta = {BID: [], ASK: []}` accumulator of `_pair_level2_update`. -/
structure Delta where
  bid : List (ℚ × ℚ)
  ask : List (ℚ × ℚ)
deriving DecidableEq

/-- Python `delta[side].append(pq)`. -/
def Delta.push (d : Delta) : Side → (ℚ × ℚ) → Delta
  | .bid, pq => { d with bid := d.bid ++ [pq] }
  | .ask, pq => { d with ask := d.ask ++ [pq] }

/-- One entry of `msg['updates']` in an `l2_data` event (`side`,
`price_level`, `new_quantity`), numeric fields already `Decimal`-parsed. -/
structure RawUpdate where
  side : String
  price_level : ℚ
  new_quantity : ℚ
deriving DecidableEq

/-- One entry of `event['trades']` in a `market_trades` update event.
`trade_id` is kept as the string the code produces with `str(...)`;
`time` is the venue timestamp string (`timestamp_normalize` is an
external collaborator and is modelled as the identity). -/
structure RawTrade where
  trade_id : String
  side : String
  size : ℚ
  price : ℚ
  product_id : String
  time : String
deriving DecidableEq

/-- Normalized trade side (`cryptofeed.defines.BUY` / `SELL`). -/
inductive TradeSide
  | buy
  | sell
deriving DecidableEq

/-- The normalized `Trade` record built by `_trade_update` (lines 120-130);
the `raw` echo of the message is not modelled. -/
structure Trade where
  pair : String
  side : TradeSide
  amount : ℚ
  price : ℚ
  ts : String
  id : String
  order_type : String
deriving DecidableEq

/-- Lines 117-130 of `_trade_update`: field mapping of one raw trade,
with `SELL if msg['side'] == 'SELL' else BUY` and `order_type = 'market'`. -/
def tradeUpdate (raw : RawTrade) : Trade :=
  { pair := raw.product_id
    side := if raw.side = "SELL" then .sell else .buy
    amount := raw.size
    price := raw.price
    ts := raw.time
    id := raw.trade_id
    order_type := "market" }

/-- The mutable feed state touched by this module: `self.order_map`,
`self.order_type_map`, `self.seq_no`, `self._l2_book` (see `__reset`,
lines 92-96).  `seq_no` is `None` or a pair → last-accepted-seq dict. -/
structure EngineState where
  order_map : List (String × (ℚ × ℚ))
  order_type_map : List (String × String)
  seq_no : Option (List (String × Nat))
  l2_book : List (String × Book)
deriving DecidableEq

/-- Model of `__reset` (lines 92-96): every map emptied, `seq_no = None`. -/
def resetState : EngineState :=
  { order_map := [], order_type_map := [], seq_no := none, l2_book := [] }

/-- Errors the handler can raise; `KeyError` from a missing dict key. -/
inductive Err
  | keyError (key : String)
deriving DecidableEq

/-- A callback delivered to consumers: a normalized trade
(`self.callback(TRADES, ...)`) or a book notification
(`self.book_callback(L2_BOOK, book, ...)`) with its optional delta.
Timestamp pass-through metadata is not modelled. -/
inductive Emit
  | trade (t : Trade)
  | book (pair : String) (bk : Book) (delta : Option Delta)
deriving DecidableEq

/-- The module-level `get_private_parameters` (lines 30-49).
`hmacHex secret message` stands for the external
`hmac.new(secret, message, sha256).hexdigest()` primitive; `timestamp`
is the stringified wall-clock second the code captures at entry.
In REST mode the path `GET`-signed is `'/api/v3/brokerage/' + endpoint`;
in streaming mode the message is timestamp, channel and the
comma-joined symbol list. -/
def get_private_parameters (hmacHex : String → String → String)
    (timestamp key_id key_secret : String) (chan : String)
    (product_ids : List String) (rest_api : Bool) (endpoint : String) :
    List (String × String) :=
  if rest_api then
    let endpoint' := "/api/v3/brokerage/" ++ endpoint
    let message := timestamp ++ "GET" ++ endpoint'
    let signature := hmacHex key_secret message
    [("CB-ACCESS-KEY", key_id), ("CB-ACCESS-TIMESTAMP", timestamp),
     ("CB-ACCESS-SIGN", signature)]
  else
    let product_ids_str := String.intercalate "," product_ids
    let message := timestamp ++ chan ++ product_ids_str
    let signature := hmacHex key_secret message
    [("api_key", key_id), ("timestamp", timestamp), ("signature", signature)]

/-- Lines 135-138 of `_pair_level2_snapshot`: the dict comprehension
`{Decimal(u['price_level']): Decimal(u['new_quantity']) for u in updates
if u['side'] == s}` — duplicate prices keep the first position with the
later value, exactly `ainsert` folded left.  No zero-quantity filtering
happens here. -/
def snapshotSide (updates : List RawUpdate) (s : String) : SideMap :=
  (updates.filter (fun u => u.side = s)).foldl
    (fun m u => ainsert m u.price_level (.qty u.new_quantity)) []

/-- Model of `_pair_level2_snapshot` (lines 133-145): build both sides from the
event, store them for the pair (`OrderBook(..., bids=bids, asks=asks)`
when the pair is new, `book.bids = bids; book.asks = asks` otherwise —
either way the stored book holds exactly these side maps), and emit one
book notification.  -/
def pairLevel2Snapshot (st : EngineState) (pair : String)
    (updates : List RawUpdate) : EngineState × Emit :=
  let bk : Book := { bids := snapshotSide updates "bid"
                     asks := snapshotSide updates "ask" }
  ({ st with l2_book := ainsert st.l2_book pair bk }, .book pair bk none)

/-- Lines 150-161, the body of the `for update in msg['updates']` loop of
`_pair_level2_update`, acting on the (book, delta) accumulator:
zero quantity deletes the price key when present (recording `(price, 0)`
in the delta only in that case); a non-zero quantity is stored at the
price and recorded in the delta. -/
def applyUpdateEntry (bd : Book × Delta) (u : RawUpdate) : Book × Delta :=
  let side := sideOf u.side
  let price := u.price_level
  let amount := u.new_quantity
  if amount = 0 then
    if (alookup (bd.1.side side) price).isSome then
      (bd.1.setSide side (aerase (bd.1.side side) price), bd.2.push side (price, 0))
    else bd
  else
    (bd.1.setSide side (ainsert (bd.1.side side) price (.qty amount)),
     bd.2.push side (price, amount))

/-- Model of `_pair_level2_update` (lines 147-163): a missing book for the pair
raises `KeyError(pair)` (at line 156 on the first entry, or at the
line-163 callback when the batch is empty); otherwise the batch is folded
over the book in place and exactly one notification carrying the mutated
book and the accumulated delta is emitted. -/
def pairLevel2Update (st : EngineState) (pair : String)
    (updates : List RawUpdate) : Except Err (EngineState × Emit) :=
  match alookup st.l2_book pair with
  | none => .error (.keyError pair)
  | some bk =>
    let bd := updates.foldl applyUpdateEntry (bk, { bid := [], ask := [] })
    .ok ({ st with l2_book := ainsert st.l2_book pair bd.1 },
         .book pair bd.1 (some bd.2))

/-- One `{price, size}` entry of a REST `pricebook` side (line 189-191). -/
structure PriceSize where
  price : ℚ
  size : ℚ
deriving DecidableEq

/-- The parsed REST snapshot response for one symbol:
`orders['pricebook']['bids' / 'asks']`. -/
structure SnapshotResp where
  bids : List PriceSize
  asks : List PriceSize
deriving DecidableEq

/-- Line 192: the synthetic order identity `f'{side}@{size}@{price}'`
(collision-prone by design, spec §9); the numeric rendering differs from
Python's `Decimal.__str__` but is likewise a function of side, size and
price. -/
def orderId (sideName : String) (size price : ℚ) : String :=
  sideName ++ "@" ++ toString size ++ "@" ++ toString price

/-- Lines 188-197: seed one side of a freshly created book from the REST
`pricebook` list, registering every resting order in `order_map` under
its synthetic id.  A price already present holds an order map (the book
was created empty right before this loop), and the new order is added to
it; the fallback arm covers the fresh-price case. -/
def seedSide (acc : Book × List (String × (ℚ × ℚ))) (sideName : String)
    (side : Side) (orders : List PriceSize) : Book × List (String × (ℚ × ℚ)) :=
  orders.foldl
    (fun acc o =>
      let oid := orderId sideName o.size o.price
      let lvl := match alookup (acc.1.side side) o.price with
        | some (.orders om) => LevelVal.orders (ainsert om oid o.size)
        | _ => LevelVal.orders [(oid, o.size)]
      (acc.1.setSide side (ainsert (acc.1.side side) o.price lvl),
       ainsert acc.2 oid (o.price, o.size)))
    acc

/-- Lines 183-198 of `_book_snapshot` for a single pair: replace the
pair's book with a fresh one seeded from the REST response (bid side
first, then ask side, as `for side in (BID, ASK)`), extend `order_map`,
and emit one book notification. -/
def bookSnapshotOne (st : EngineState) (pair : String) (resp : SnapshotResp) :
    EngineState × Emit :=
  let acc0 : Book × List (String × (ℚ × ℚ)) := ({ bids := [], asks := [] }, st.order_map)
  let acc1 := seedSide acc0 "bid" .bid resp.bids
  let acc2 := seedSide acc1 "ask" .ask resp.asks
  ({ st with l2_book := ainsert st.l2_book pair acc2.1, order_map := acc2.2 },
   .book pair acc2.1 none)

/-- Model of `_book_snapshot` (lines 165-198): one rate-limited REST fetch per
pair, in order; `resp` maps each pair to its parsed response (the HTTP
layer is an external collaborator).  Returns the final state, the
emitted notifications and the list of pairs fetched. -/
def bookSnapshot (st : EngineState) (pairs : List String)
    (resp : String → SnapshotResp) : EngineState × List Emit × List String :=
  pairs.foldl
    (fun acc pair =>
      let r := bookSnapshotOne acc.1 pair (resp pair)
      (r.1, acc.2.1 ++ [r.2], acc.2.2 ++ [pair]))
    (st, [], [])

/-- One entry of `msg['events']`.  `etype` is `event.get('type')`;
`product_id` is optional (its presence gates the sequence check);
`trades` / `updates` carry the payload the two channels read. -/
structure InEvent where
  etype : Option String
  product_id : Option String
  trades : List RawTrade
  updates : List RawUpdate
deriving DecidableEq

/-- A decoded inbound websocket message that passed the
`'channel' in msg and 'events' in msg` guard of line 203.
`sequence_num` is optional (`'sequence_num' in msg`, line 205). -/
structure InMsg where
  channel : String
  sequence_num : Option Nat
  events : List InEvent
deriving DecidableEq

/-- What one `message_handler` call produced: the final state, the
callbacks emitted and the snapshot fetches issued, in order. -/
structure HandlerOut where
  state : EngineState
  emits : List Emit
  fetches : List String
deriving DecidableEq

/-- Outcome of the per-event sequence check (lines 205-219). -/
inductive SeqAction
  | proceed (newSeq : Option (List (String × Nat)))
  | drop
  | gap (pair : String)
deriving DecidableEq

/-- Lines 205-219: the sequence bookkeeping run before dispatch.
The whole block is guarded by `if self.seq_no and 'product_id' in event
and 'sequence_num' in msg` — a `None` or empty `seq_no` dict, a missing
`product_id` or a missing `sequence_num` skip every check (`proceed`
unchanged).  Inside the block: a missing or zero (`falsy`) entry for the
pair drops the whole message (line 207-208), `sequence_num <= last`
drops it (line 209-210), `sequence_num != last + 1` is a gap
(lines 211-217), and otherwise the entry is advanced (line 219). -/
def seqGate (seqNo : Option (List (String × Nat))) (pid : Option String)
    (sn : Option Nat) : SeqAction :=
  match seqNo, pid, sn with
  | some m, some pair, some n =>
    if m = [] then .proceed (some m)
    else
      match alookup m pair with
      | none => .drop
      | some last =>
        if last = 0 then .drop
        else if n ≤ last then .drop
        else if n ≠ last + 1 then .gap pair
        else .proceed (some (ainsert m pair n))
  | s, _, _ => .proceed s

/-- Lines 221-235: dispatch of one event by channel and event type.
`market_trades` updates normalize each trade (other types pass);
`l2_data` updates apply the batch (raising `KeyError('product_id')`
when the event lacks the field the code reads at line 148 / 134),
`l2_data` snapshots rebuild the book; `subscriptions` and unknown
channels only log. -/
def dispatchEvent (st : EngineState) (ch : String) (ev : InEvent) :
    Except Err (EngineState × List Emit) :=
  if ch = "market_trades" then
    if ev.etype = some "update" then
      .ok (st, ev.trades.map (fun t => .trade (tradeUpdate t)))
    else .ok (st, [])
  else if ch = "l2_data" then
    if ev.etype = some "update" then
      match ev.product_id with
      | none => .error (.keyError "product_id")
      | some pid =>
        match pairLevel2Update st pid ev.updates with
        | .error e => .error e
        | .ok r => .ok (r.1, [r.2])
    else if ev.etype = some "snapshot" then
      match ev.product_id with
      | none => .error (.keyError "product_id")
      | some pid =>
        let r := pairLevel2Snapshot st pid ev.updates
        .ok (r.1, [r.2])
    else .ok (st, [])
  else .ok (st, [])

/-- The `for event in msg['events']` loop of `message_handler`
(lines 204-237), with the accumulated emissions and fetches threaded
through.  Every `return` in the source ends the whole loop: a dropped
message keeps the state reached so far; a gap runs `self.__reset()` and
then `self._book_snapshot([pair])` (lines 215-216) and stops. -/
def handleEvents (resp : String → SnapshotResp) (ch : String) (sn : Option Nat)
    (st : EngineState) (ems : List Emit) (fs : List String) :
    List InEvent → Except Err HandlerOut
  | [] => .ok { state := st, emits := ems, fetches := fs }
  | ev :: rest =>
    match seqGate st.seq_no ev.product_id sn with
    | .drop => .ok { state := st, emits := ems, fetches := fs }
    | .gap pair =>
      let r := bookSnapshot resetState [pair] resp
      .ok { state := r.1, emits := ems ++ r.2.1, fetches := fs ++ r.2.2 }
    | .proceed s' =>
      match dispatchEvent { st with seq_no := s' } ch ev with
      | .error e => .error e
      | .ok r => handleEvents resp ch sn r.1 (ems ++ r.2) fs rest

/-- Model of `message_handler` (lines 200-237) on a decoded message. -/
def messageHandler (st : EngineState) (msg : InMsg)
    (resp : String → SnapshotResp) : Except Err HandlerOut :=
  handleEvents resp msg.channel msg.sequence_num st [] [] msg.events

/-- Line 256, `list(dict.fromkeys(all_pairs))`: de-duplicate keeping the
first occurrence of each element, in first-seen order.  `seen` holds the
elements already kept. -/
def dedupFirstAux (seen : List String) : List String → List String
  | [] => []
  | a :: l =>
    if a ∈ seen then dedupFirstAux seen l
    else a :: dedupFirstAux (a :: seen) l

/-- First-seen-order de-duplication of a symbol list. -/
def dedupFirst (l : List String) : List String :=
  dedupFirstAux [] l

/-- One outbound subscribe payload written by the inner `_subscribe` of
`subscribe` (lines 243-251): `{"type": "subscribe", "product_ids": ...,
"channel": ...}` merged with the streaming-mode signed fields (the
signed dict is always non-empty, so the `if private_params` guard always
merges it). -/
structure SubMsg where
  channel : String
  product_ids : List String
  auth : List (String × String)
deriving DecidableEq

/-- Model of `subscribe` (lines 239-257): one subscribe message per configured
channel with that channel's symbols, then one `'heartbeat'` subscribe
over the de-duplicated concatenation of every channel's symbols.
`subscription` is the configured channel → symbols map in iteration
order. -/
def subscribeMsgs (hmacHex : String → String → String)
    (timestamp key_id key_secret : String)
    (subscription : List (String × List String)) : List SubMsg :=
  let mk := fun (ch : String) (pids : List String) =>
    { channel := ch, product_ids := pids
      auth := get_private_parameters hmacHex timestamp key_id key_secret ch pids
        false "" : SubMsg }
  (subscription.map fun cp => mk cp.1 cp.2)
    ++ [mk "heartbeat" (dedupFirst (subscription.flatMap Prod.snd))]

/-! Concrete fixtures used by the theorems below. -/

/-- A book held for the unaffected symbol in the gap scenario. -/
def bookETH : Book := { bids := [(1, .qty 2)], asks := [] }

/-- A book held for the symbol the gap is detected on. -/
def bookBTC : Book := { bids := [(3, .qty 4)], asks := [] }

/-- A state tracking two symbols, with baselines 5 and 7 and an order-map
entry. -/
def twoSymbolState : EngineState :=
  { order_map := [("x", (1, 2))], order_type_map := []
    seq_no := some [("BTC-USD", 5), ("ETH-USD", 7)]
    l2_book := [("BTC-USD", bookBTC), ("ETH-USD", bookETH)] }

/-- A book update for BTC-USD with sequence number 10 while the last
accepted one is 5: a gap. -/
def gapMsgBTC : InMsg :=
  { channel := "l2_data", sequence_num := some 10
    events := [{ etype := some "update", product_id := some "BTC-USD",
                 trades := [], updates := [] }] }

/-- A snapshot-fetch stub answering every pair with an empty depth. -/
def emptyResp : String → SnapshotResp := fun _ => { bids := [], asks := [] }

/-- The spec's no-stored-zero invariant on one book: no price level of
either side holds the quantity value 0. -/
def Book.noZero (b : Book) : Prop :=
  (∀ pv ∈ b.bids, pv.2 ≠ LevelVal.qty 0) ∧ (∀ pv ∈ b.asks, pv.2 ≠ LevelVal.qty 0)

instance (b : Book) : Decidable b.noZero := by
  unfold Book.noZero
  infer_instance

theorem alookup_ainsert {α β : Type} [DecidableEq α] (l : List (α × β)) (k : α) (v : β)
    (k' : α) : alookup (ainsert l k v) k' = if k = k' then some v else alookup l k' := by
  induction l with
  | nil => by_cases h : k = k' <;> simp [ainsert, alookup, h]
  | cons kv rest ih =>
    obtain ⟨a, b⟩ := kv
    by_cases hk : a = k
    · subst hk
      by_cases h : a = k' <;> simp [ainsert, alookup, h]
    · by_cases h : a = k'
      · subst h
        have hk' : ¬ k = a := fun he => hk he.symm
        simp [ainsert, alookup, hk, hk']
      · simp [ainsert, alookup, hk, h, ih]

theorem alookup_aerase {α β : Type} [DecidableEq α] (l : List (α × β)) (k : α) (k' : α) :
    alookup (aerase l k) k' = if k = k' then none else alookup l k' := by
  induction l with
  | nil => simp [aerase, alookup]
  | cons kv rest ih =>
    obtain ⟨a, b⟩ := kv
    by_cases hk : a = k
    · subst hk
      by_cases h : a = k'
      · subst h; simpa [aerase] using ih
      · simp [aerase, alookup, h, ih]
    · by_cases h : a = k'
      · subst h
        have hk' : ¬ k = a := fun he => hk he.symm
        simp [aerase, alookup, hk, hk']
      · simp [aerase, alookup, hk, h, ih]

theorem mem_ainsert {α β : Type} [DecidableEq α] (l : List (α × β)) (k : α) (v : β)
    (x : α × β) : x ∈ ainsert l k v → x ∈ l ∨ x = (k, v) := by
  induction l with
  | nil => simp [ainsert]
  | cons kv rest ih =>
    by_cases hk : kv.1 = k
    · simp only [ainsert, if_pos hk]
      intro hx
      rcases List.mem_cons.mp hx with h | h
      · right; exact h
      · left; exact List.mem_cons_of_mem _ h
    · simp only [ainsert, if_neg hk]
      intro hx
      rcases List.mem_cons.mp hx with h | h
      · left; exact h ▸ List.mem_cons_self _ _
      · rcases ih h with h' | h'
        · left; exact List.mem_cons_of_mem _ h'
        · right; exact h'

theorem mem_aerase {α β : Type} [DecidableEq α] (l : List (α × β)) (k : α)
    (x : α × β) : x ∈ aerase l k → x ∈ l := by
  induction l with
  | nil => simp [aerase]
  | cons kv rest ih =>
    by_cases hk : kv.1 = k
    · simp only [aerase, if_pos hk]
      intro h
      exact List.mem_cons_of_mem _ (ih h)
    · simp only [aerase, if_neg hk]
      intro hx
      rcases List.mem_cons.mp hx with h | h
      · exact h ▸ List.mem_cons_self _ _
      · exact List.mem_cons_of_mem _ (ih h)

/-- Claim C1: the claim says the state cleared on a gap is exactly the
affected symbol's, other symbols being untouched — and that matches the
spec and the per-symbol log line the code prints, but `message_handler`
calls `__reset` (lines 211-217), which empties every symbol's book, the
whole sequence map and the whole order map, then re-fetches only the
affected symbol: at a two-symbol state the gap on BTC-USD erases
ETH-USD's book, baseline and the order map as well. -/
theorem c1_gap_reset_clears_other_symbols :
    alookup twoSymbolState.l2_book "ETH-USD" = some bookETH ∧
    alookup (twoSymbolState.seq_no.getD []) "ETH-USD" = some 7 ∧
    twoSymbolState.order_map = [("x", (1, 2))] ∧
    messageHandler twoSymbolState gapMsgBTC emptyResp
      = .ok { state := { order_map := [], order_type_map := [], seq_no := none,
                         l2_book := [("BTC-USD", { bids := [], asks := [] })] },
              emits := [.book "BTC-USD" { bids := [], asks := [] } none],
              fetches := ["BTC-USD"] } := by
  refine ⟨by decide, by decide, by decide, by decide⟩

/-- Claim C6 counterexample: `_pair_level2_snapshot` builds its side maps
without filtering zero quantities (lines 135-138), so a snapshot event
carrying `new_quantity = 0` leaves a zero-quantity price level stored in
the book after the operation completes. -/
theorem c6_counterexample :
    alookup ((pairLevel2Snapshot resetState "BTC-USD"
          [{ side := "bid", price_level := 100, new_quantity := 0 }]).1.l2_book)
        "BTC-USD"
      = some { bids := [(100, LevelVal.qty 0)], asks := [] } ∧
    alookup ({ bids := [(100, LevelVal.qty 0)], asks := [] } : Book).bids 100
      = some (LevelVal.qty 0) := by
  refine ⟨by decide, by decide⟩

/-- Claim C7: REST-mode signing at timestamp 1700000000 with endpoint
`products` signs exactly the literal string
`1700000000GET/api/v3/brokerage/products` with the given secret, and in
general REST mode signs timestamp, then `GET`, then the request path,
returning the key, timestamp and signature header fields. -/
theorem c7_rest_signing :
    (∀ (hmacHex : String → String → String) (kid ch : String) (pl : List String),
      get_private_parameters hmacHex "1700000000" kid "s3cr3t" ch pl true "products"
        = [("CB-ACCESS-KEY", kid), ("CB-ACCESS-TIMESTAMP", "1700000000"),
           ("CB-ACCESS-SIGN",
            hmacHex "s3cr3t" "1700000000GET/api/v3/brokerage/products")]) ∧
    (∀ (hmacHex : String → String → String) (ts kid ks ch ep : String)
        (pl : List String),
      get_private_parameters hmacHex ts kid ks ch pl true ep
        = [("CB-ACCESS-KEY", kid), ("CB-ACCESS-TIMESTAMP", ts),
           ("CB-ACCESS-SIGN", hmacHex ks (ts ++ "GET" ++ ("/api/v3/brokerage/" ++ ep)))]) := by
  constructor <;> intros <;> rfl

/-- Claim C9: the normalized trade side is `sell` exactly when the raw
side token is the literal `SELL`; every other token, the empty string
included, maps to `buy`. -/
theorem c9_trade_side (raw : RawTrade) :
    ((tradeUpdate raw).side = TradeSide.sell ↔ raw.side = "SELL") ∧
    (raw.side ≠ "SELL" → (tradeUpdate raw).side = TradeSide.buy) := by
  constructor
  · by_cases h : raw.side = "SELL" <;> simp [tradeUpdate, h]
  · intro h
    simp [tradeUpdate, h]

/-- Witness for C9 at a malformed (empty) side token. -/
theorem c9_trade_side_witness :
    (tradeUpdate { trade_id := "1", side := "", size := 1, price := 2,
                   product_id := "BTC-USD", time := "t" }).side = TradeSide.buy :=
  (c9_trade_side _).2 (by decide)

/-- Claim C10: a level-2 update for a pair with no book (no snapshot since
the last reset) is not total: `_pair_level2_update` raises `KeyError` on
the missing book — it neither creates a book nor silently drops the
batch — and the error propagates out of `message_handler`. -/
theorem c10_update_missing_book (st : EngineState) (pair : String)
    (updates : List RawUpdate) (ev : InEvent) (sn : Option Nat)
    (resp : String → SnapshotResp)
    (hbk : alookup st.l2_book pair = none)
    (hseq : st.seq_no = none)
    (hty : ev.etype = some "update") (hpid : ev.product_id = some pair) :
    pairLevel2Update st pair updates = .error (.keyError pair) ∧
    messageHandler st { channel := "l2_data", sequence_num := sn, events := [ev] }
        resp
      = .error (.keyError pair) := by
  have hst : { st with seq_no := none } = st := by
    cases st
    simp_all
  constructor
  · simp [pairLevel2Update, hbk]
  · simp [messageHandler, handleEvents, seqGate, hseq, hty, hpid, hst,
      dispatchEvent, pairLevel2Update, hbk]

/-- Witness for C10: fresh (reset) state, one-entry update batch. -/
theorem c10_update_missing_book_witness :
    pairLevel2Update resetState "BTC-USD"
        [{ side := "bid", price_level := 1, new_quantity := 2 }]
      = .error (.keyError "BTC-USD") ∧
    messageHandler resetState
        { channel := "l2_data", sequence_num := none,
          events := [{ etype := some "update", product_id := some "BTC-USD",
                       trades := [],
                       updates := [{ side := "bid", price_level := 1,
                                     new_quantity := 2 }] }] }
        emptyResp
      = .error (.keyError "BTC-USD") :=
  c10_update_missing_book resetState "BTC-USD" _ _ none emptyResp rfl rfl rfl rfl

/-- Claim C2: with a non-zero baseline `last` for the symbol, a book
update whose sequence number exceeds `last + 1` makes the handler clear
the prior state, issue exactly one snapshot fetch (for that symbol), and
stop without applying the triggering message: the result is exactly the
resync snapshot seeded into the freshly reset state — the clear happens
before the resync result is applied, and nothing of the incoming batch
reaches the book. -/
theorem c2_gap_clears_then_single_resync (st : EngineState)
    (m : List (String × Nat)) (pair : String) (last sn : Nat) (ev : InEvent)
    (resp : String → SnapshotResp)
    (hseq : st.seq_no = some m) (hlast : alookup m pair = some last)
    (h0 : last ≠ 0) (hgap : last + 1 < sn) (hpid : ev.product_id = some pair) :
    messageHandler st
        { channel := "l2_data", sequence_num := some sn, events := [ev] } resp
      = .ok { state := (bookSnapshotOne resetState pair (resp pair)).1,
              emits := [(bookSnapshotOne resetState pair (resp pair)).2],
              fetches := [pair] } := by
  have hm : m ≠ [] := by
    intro h
    subst h
    simp [alookup] at hlast
  have hle : ¬ sn ≤ last := by omega
  have hne : sn ≠ last + 1 := by omega
  simp only [messageHandler, handleEvents]
  rw [hseq, hpid]
  simp [seqGate, hm, hlast, h0, hle, hne, bookSnapshot]

/-- Witness for C2: baseline 5, incoming 10. -/
theorem c2_gap_clears_then_single_resync_witness :
    messageHandler
        { order_map := [], order_type_map := [],
          seq_no := some [("BTC-USD", 5)], l2_book := [("BTC-USD", bookBTC)] }
        { channel := "l2_data", sequence_num := some 10,
          events := [{ etype := some "update", product_id := some "BTC-USD",
                       trades := [], updates := [] }] }
        emptyResp
      = .ok { state := (bookSnapshotOne resetState "BTC-USD" (emptyResp "BTC-USD")).1,
              emits := [(bookSnapshotOne resetState "BTC-USD" (emptyResp "BTC-USD")).2],
              fetches := ["BTC-USD"] } :=
  c2_gap_clears_then_single_resync _ _ "BTC-USD" 5 10 _ emptyResp rfl (by decide)
    (by decide) (by decide) rfl

/-- Claim C3 counterexample: the claim says a symbol with no baseline is
accepted without further checks and applied, but when the sequence map is
non-empty and merely lacks this symbol, lines 207-208 return and the
message is dropped: at a state tracking only ETH-USD, a BTC-USD update
leaves the state untouched and emits nothing, although applying it would
have mutated the book. -/
theorem c3_counterexample :
    alookup [(("ETH-USD" : String), (5 : Nat))] "BTC-USD" = none ∧
    messageHandler
        { order_map := [], order_type_map := [], seq_no := some [("ETH-USD", 5)],
          l2_book := [("BTC-USD", { bids := [], asks := [] })] }
        { channel := "l2_data", sequence_num := some 1,
          events := [{ etype := some "update", product_id := some "BTC-USD",
                       trades := [],
                       updates := [{ side := "bid", price_level := 5,
                                     new_quantity := 7 }] }] }
        emptyResp
      = .ok { state := { order_map := [], order_type_map := [],
                         seq_no := some [("ETH-USD", 5)],
                         l2_book := [("BTC-USD", { bids := [], asks := [] })] },
              emits := [], fetches := [] } ∧
    pairLevel2Update
        { order_map := [], order_type_map := [], seq_no := some [("ETH-USD", 5)],
          l2_book := [("BTC-USD", { bids := [], asks := [] })] }
        "BTC-USD" [{ side := "bid", price_level := 5, new_quantity := 7 }]
      = .ok ({ order_map := [], order_type_map := [],
               seq_no := some [("ETH-USD", 5)],
               l2_book := [("BTC-USD", { bids := [(5, .qty 7)], asks := [] })] },
             .book "BTC-USD" { bids := [(5, .qty 7)], asks := [] }
               (some { bid := [(5, 7)], ask := [] })) := by
  refine ⟨by decide, by decide, by decide⟩

/-- Claim C3, amended: an incoming book update is applied without any
sequence check when no sequence map exists at all (`seq_no` is `None`,
the only state the current code ever produces, or the empty dict); but
when a non-empty sequence map exists and has no entry for the symbol,
the message is dropped without being applied.  The first state `stN`
exhibits the apply case, the second state `st` the drop case. -/
theorem c3_no_baseline_accept_or_drop (stN st : EngineState)
    (m : List (String × Nat)) (pid : String) (sn : Nat) (ev : InEvent)
    (resp : String → SnapshotResp) (st' : EngineState) (em : Emit)
    (hty : ev.etype = some "update") (hpid : ev.product_id = some pid)
    (hN : stN.seq_no = none)
    (happ : pairLevel2Update stN pid ev.updates = .ok (st', em))
    (hS : st.seq_no = some m) (hm : m ≠ []) (hnone : alookup m pid = none) :
    messageHandler stN
        { channel := "l2_data", sequence_num := some sn, events := [ev] } resp
      = .ok { state := st', emits := [em], fetches := [] } ∧
    messageHandler st
        { channel := "l2_data", sequence_num := some sn, events := [ev] } resp
      = .ok { state := st, emits := [], fetches := [] } := by
  have hstN : { stN with seq_no := none } = stN := by
    cases stN
    simp_all
  constructor
  · simp [messageHandler, handleEvents, seqGate, hN, hty, hpid, hstN,
      dispatchEvent, happ]
  · simp only [messageHandler, handleEvents]
    rw [hS, hpid]
    simp [seqGate, hm, hnone]

/-- Witness for C3's amended statement: an untracked state applies the
update; a state tracking only another symbol drops it. -/
theorem c3_no_baseline_accept_or_drop_witness :
    messageHandler
        { order_map := [], order_type_map := [], seq_no := none,
          l2_book := [("P", { bids := [], asks := [] })] }
        { channel := "l2_data", sequence_num := some 3,
          events := [{ etype := some "update", product_id := some "P",
                       trades := [],
                       updates := [{ side := "bid", price_level := 5,
                                     new_quantity := 7 }] }] }
        emptyResp
      = .ok { state := { order_map := [], order_type_map := [], seq_no := none,
                         l2_book := [("P", { bids := [(5, .qty 7)], asks := [] })] },
              emits := [.book "P" { bids := [(5, .qty 7)], asks := [] }
                          (some { bid := [(5, 7)], ask := [] })],
              fetches := [] } ∧
    messageHandler
        { order_map := [], order_type_map := [], seq_no := some [("Q", 3)],
          l2_book := [("P", { bids := [], asks := [] })] }
        { channel := "l2_data", sequence_num := some 3,
          events := [{ etype := some "update", product_id := some "P",
                       trades := [],
                       updates := [{ side := "bid", price_level := 5,
                                     new_quantity := 7 }] }] }
        emptyResp
      = .ok { state := { order_map := [], order_type_map := [],
                         seq_no := some [("Q", 3)],
                         l2_book := [("P", { bids := [], asks := [] })] },
              emits := [], fetches := [] } :=
  c3_no_baseline_accept_or_drop _ _ [("Q", 3)] "P" 3 _ emptyResp _ _ rfl rfl rfl
    (by decide) rfl (by decide) (by decide)

/-- Claim C4: with a baseline recorded for the symbol, a message whose
sequence number does not exceed it is dropped with no effect at all:
the returned state is the input state and nothing is emitted or fetched
(idempotence under re-delivery).  This covers both the stale branch of
line 209 and the zero-baseline branch of line 207. -/
theorem c4_stale_is_noop (st : EngineState) (m : List (String × Nat))
    (pair : String) (last sn : Nat) (ch : String) (ev : InEvent)
    (resp : String → SnapshotResp)
    (hseq : st.seq_no = some m) (hlast : alookup m pair = some last)
    (hsn : sn ≤ last) (hpid : ev.product_id = some pair) :
    messageHandler st { channel := ch, sequence_num := some sn, events := [ev] }
        resp
      = .ok { state := st, emits := [], fetches := [] } := by
  have hm : m ≠ [] := by
    intro h
    subst h
    simp [alookup] at hlast
  simp only [messageHandler, handleEvents]
  rw [hseq, hpid]
  by_cases h0 : last = 0
  · simp [seqGate, hm, hlast, h0]
  · simp [seqGate, hm, hlast, h0, hsn]

/-- Witness for C4: baseline 5, duplicate sequence number 5. -/
theorem c4_stale_is_noop_witness :
    messageHandler twoSymbolState
        { channel := "l2_data", sequence_num := some 5,
          events := [{ etype := some "update", product_id := some "BTC-USD",
                       trades := [], updates := [] }] }
        emptyResp
      = .ok { state := twoSymbolState, emits := [], fetches := [] } :=
  c4_stale_is_noop _ _ "BTC-USD" 5 5 _ _ emptyResp rfl (by decide) (by decide) rfl

/-- Projection/update of one side of a book. -/
theorem Book.side_setSide (b : Book) (sd : Side) (m : SideMap) :
    (b.setSide sd m).side sd = m := by
  cases sd <;> rfl

/-- A successful lookup exhibits a member of the association list. -/
theorem alookup_mem {α β : Type} [DecidableEq α] (l : List (α × β)) (k : α) (v : β)
    (h : alookup l k = some v) : (k, v) ∈ l := by
  induction l with
  | nil => simp [alookup] at h
  | cons kv rest ih =>
    by_cases hk : kv.1 = k
    · simp only [alookup, if_pos hk] at h
      have : kv = (k, v) := by
        obtain ⟨a, b'⟩ := kv
        simp only at hk
        simp only [Option.some.injEq] at h
        simp [hk, h]
      rw [this]
      exact List.mem_cons_self _ _
    · simp only [alookup, if_neg hk] at h
      exact List.mem_cons_of_mem _ (ih h)

/-- Claim C5: per entry of a level-2 update batch, a zero quantity on an
existing level deletes the price key (the post-map no longer resolves the
price) and records `(price, 0)` in the delta; a zero quantity on an
absent level changes nothing; a non-zero quantity makes the side map
resolve the price to exactly that quantity and records the pair in the
delta; and, given the pair's book exists, the whole batch produces
exactly one notification, carrying the mutated book (the very book
stored back into the state) and the accumulated delta. -/
theorem c5_update_entry_semantics (b : Book) (d : Delta) (s : String) (p q : ℚ)
    (st : EngineState) (pair : String) (updates : List RawUpdate) (bk : Book)
    (hbk : alookup st.l2_book pair = some bk) :
    (q = 0 → (alookup (b.side (sideOf s)) p).isSome = true →
      (applyUpdateEntry (b, d) { side := s, price_level := p, new_quantity := q }).1.side
          (sideOf s)
        = aerase (b.side (sideOf s)) p ∧
      alookup
          ((applyUpdateEntry (b, d)
              { side := s, price_level := p, new_quantity := q }).1.side (sideOf s)) p
        = none ∧
      (applyUpdateEntry (b, d) { side := s, price_level := p, new_quantity := q }).2
        = d.push (sideOf s) (p, 0)) ∧
    (q = 0 → alookup (b.side (sideOf s)) p = none →
      applyUpdateEntry (b, d) { side := s, price_level := p, new_quantity := q }
        = (b, d)) ∧
    (q ≠ 0 →
      alookup
          ((applyUpdateEntry (b, d)
              { side := s, price_level := p, new_quantity := q }).1.side (sideOf s)) p
        = some (.qty q) ∧
      (applyUpdateEntry (b, d) { side := s, price_level := p, new_quantity := q }).2
        = d.push (sideOf s) (p, q)) ∧
    (∃ bk' dl, pairLevel2Update st pair updates
        = .ok ({ st with l2_book := ainsert st.l2_book pair bk' },
               .book pair bk' (some dl))) := by
  refine ⟨?_, ?_, ?_, ?_⟩
  · intro hq hsome
    subst hq
    refine ⟨?_, ?_, ?_⟩ <;>
      simp [applyUpdateEntry, hsome, Book.side_setSide, alookup_aerase]
  · intro hq hnone
    subst hq
    simp [applyUpdateEntry, hnone]
  · intro hq
    constructor <;> simp [applyUpdateEntry, hq, Book.side_setSide, alookup_ainsert]
  · exact ⟨(updates.foldl applyUpdateEntry (bk, { bid := [], ask := [] })).1,
           (updates.foldl applyUpdateEntry (bk, { bid := [], ask := [] })).2,
           by simp [pairLevel2Update, hbk]⟩

/-- Witness for C5: a zero-quantity entry on an existing bid level 3
records `(3, 0)` in the delta. -/
theorem c5_update_entry_semantics_witness :
    (applyUpdateEntry ({ bids := [(3, .qty 4)], asks := [] }, { bid := [], ask := [] })
        { side := "bid", price_level := 3, new_quantity := 0 }).2
      = Delta.push { bid := [], ask := [] } (sideOf "bid") (3, 0) :=
  ((c5_update_entry_semantics { bids := [(3, .qty 4)], asks := [] }
      { bid := [], ask := [] } "bid" 3 0 twoSymbolState "BTC-USD" [] bookBTC
      (by decide)).1 rfl (by decide)).2.2

theorem Book.noZero_side (b : Book) (h : b.noZero) (sd : Side) :
    ∀ pv ∈ b.side sd, pv.2 ≠ LevelVal.qty 0 := by
  cases sd
  · exact h.1
  · exact h.2

theorem Book.noZero_setSide (b : Book) (sd : Side) (m : SideMap)
    (h : b.noZero) (hm : ∀ pv ∈ m, pv.2 ≠ LevelVal.qty 0) :
    (b.setSide sd m).noZero := by
  cases sd
  · exact ⟨hm, h.2⟩
  · exact ⟨h.1, hm⟩

theorem applyUpdateEntry_noZero (b : Book) (d : Delta) (u : RawUpdate)
    (h : b.noZero) : (applyUpdateEntry (b, d) u).1.noZero := by
  by_cases hq : u.new_quantity = 0
  · by_cases hp : (alookup (b.side (sideOf u.side)) u.price_level).isSome = true
    · simp only [applyUpdateEntry, hq, if_pos, hp, if_true]
      refine Book.noZero_setSide _ _ _ h ?_
      intro pv hpv
      exact Book.noZero_side b h (sideOf u.side) pv (mem_aerase _ _ _ hpv)
    · simp only [applyUpdateEntry, hq, if_pos, hp, if_false, Bool.false_eq_true]
      exact h
  · simp only [applyUpdateEntry, if_neg hq]
    refine Book.noZero_setSide _ _ _ h ?_
    intro pv hpv
    rcases mem_ainsert _ _ _ _ hpv with h' | h'
    · exact Book.noZero_side b h (sideOf u.side) pv h'
    · rw [h']
      simpa using hq

theorem foldl_applyUpdateEntry_noZero (updates : List RawUpdate) :
    ∀ (b : Book) (d : Delta), b.noZero →
      (updates.foldl applyUpdateEntry (b, d)).1.noZero := by
  induction updates with
  | nil => intro b d h; exact h
  | cons u rest ih =>
    intro b d h
    simp only [List.foldl_cons]
    rcases hbd : applyUpdateEntry (b, d) u with ⟨b', d'⟩
    have h' := applyUpdateEntry_noZero b d u h
    rw [hbd] at h'
    exact ih b' d' h'

theorem foldl_ainsert_qty_noZero (l : List RawUpdate) :
    ∀ (m : SideMap), (∀ pv ∈ m, pv.2 ≠ LevelVal.qty 0) →
      (∀ u ∈ l, u.new_quantity ≠ 0) →
      ∀ pv ∈ l.foldl (fun m u => ainsert m u.price_level (.qty u.new_quantity)) m,
        pv.2 ≠ LevelVal.qty 0 := by
  induction l with
  | nil =>
    intro m hm _ pv hpv
    exact hm pv hpv
  | cons u rest ih =>
    intro m hm hz pv hpv
    simp only [List.foldl_cons] at hpv
    refine ih _ ?_ (fun u' hu' => hz u' (List.mem_cons_of_mem _ hu')) pv hpv
    intro pv' hpv'
    rcases mem_ainsert _ _ _ _ hpv' with h' | h'
    · exact hm pv' h'
    · rw [h']
      simpa using hz u (List.mem_cons_self _ _)

theorem snapshotSide_noZero (updates : List RawUpdate) (s : String)
    (hz : ∀ u ∈ updates, u.new_quantity ≠ 0) :
    ∀ pv ∈ snapshotSide updates s, pv.2 ≠ LevelVal.qty 0 := by
  refine foldl_ainsert_qty_noZero _ _ (by simp) ?_
  intro u hu
  exact hz u (List.mem_of_mem_filter hu)

/-- Claim C6, amended: the update path does preserve the invariant — if
every stored book is zero-free, the books after a successful
`_pair_level2_update` batch are zero-free (a zero quantity only ever
removes a level, a stored quantity is always non-zero) — but the
snapshot path stores the event's side maps verbatim, so after
`_pair_level2_snapshot` the invariant is only guaranteed when the event
itself carried no zero quantities (see the counterexample for an event
that does). -/
theorem c6_no_zero_qty_amended (st : EngineState) (pair pairS : String)
    (updates snapUpdates : List RawUpdate) (st' : EngineState) (em : Emit)
    (hst : ∀ pb ∈ st.l2_book, Book.noZero pb.2)
    (hok : pairLevel2Update st pair updates = .ok (st', em))
    (hz : ∀ u ∈ snapUpdates, u.new_quantity ≠ 0) :
    (∀ pb ∈ st'.l2_book, Book.noZero pb.2) ∧
    (∀ pb ∈ (pairLevel2Snapshot st pairS snapUpdates).1.l2_book,
      Book.noZero pb.2) := by
  constructor
  · cases hbk : alookup st.l2_book pair with
    | none => simp [pairLevel2Update, hbk] at hok
    | some bk =>
      have hbkZ : bk.noZero := hst (pair, bk) (alookup_mem _ _ _ hbk)
      simp only [pairLevel2Update, hbk, Except.ok.injEq, Prod.mk.injEq] at hok
      intro pb hpb
      rw [← hok.1] at hpb
      simp only at hpb
      rcases mem_ainsert _ _ _ _ hpb with h' | h'
      · exact hst pb h'
      · rw [h']
        exact foldl_applyUpdateEntry_noZero updates bk _ hbkZ
  · intro pb hpb
    simp only [pairLevel2Snapshot] at hpb
    rcases mem_ainsert _ _ _ _ hpb with h' | h'
    · exact hst pb h'
    · rw [h']
      exact ⟨snapshotSide_noZero _ _ hz, snapshotSide_noZero _ _ hz⟩

/-- Witness for C6's amended statement: a removal batch on a zero-free
one-book state keeps every stored book zero-free, as does a zero-free
snapshot event. -/
theorem c6_no_zero_qty_amended_witness :
    (∀ pb ∈ ({ order_map := [], order_type_map := [], seq_no := none,
               l2_book := [("P", { bids := [], asks := [] })] } : EngineState).l2_book,
      Book.noZero pb.2) ∧
    (∀ pb ∈ (pairLevel2Snapshot
        { order_map := [], order_type_map := [], seq_no := none,
          l2_book := [("P", { bids := [(1, .qty 2)], asks := [] })] }
        "Q" [{ side := "ask", price_level := 9, new_quantity := 1 }]).1.l2_book,
      Book.noZero pb.2) :=
  c6_no_zero_qty_amended
    { order_map := [], order_type_map := [], seq_no := none,
      l2_book := [("P", { bids := [(1, .qty 2)], asks := [] })] }
    "P" "Q" [{ side := "bid", price_level := 1, new_quantity := 0 }]
    [{ side := "ask", price_level := 9, new_quantity := 1 }]
    { order_map := [], order_type_map := [], seq_no := none,
      l2_book := [("P", { bids := [], asks := [] })] }
    (.book "P" { bids := [], asks := [] } (some { bid := [(1, 0)], ask := [] }))
    (by decide) (by decide) (by decide)

theorem mem_dedupFirstAux (l : List String) :
    ∀ (seen : List String) (x : String),
      x ∈ dedupFirstAux seen l ↔ x ∈ l ∧ x ∉ seen := by
  induction l with
  | nil => simp [dedupFirstAux]
  | cons a rest ih =>
    intro seen x
    by_cases ha : a ∈ seen
    · rw [dedupFirstAux, if_pos ha, ih]
      constructor
      · rintro ⟨hx, hns⟩
        exact ⟨List.mem_cons_of_mem _ hx, hns⟩
      · rintro ⟨hx, hns⟩
        rcases List.mem_cons.mp hx with rfl | hx'
        · exact absurd ha hns
        · exact ⟨hx', hns⟩
    · rw [dedupFirstAux, if_neg ha]
      constructor
      · intro hx
        rcases List.mem_cons.mp hx with rfl | hx'
        · exact ⟨List.mem_cons_self _ _, ha⟩
        · rcases (ih (a :: seen) x).mp hx' with ⟨hr, hns⟩
          exact ⟨List.mem_cons_of_mem _ hr,
                 fun hs => hns (List.mem_cons_of_mem _ hs)⟩
      · rintro ⟨hx, hns⟩
        rcases List.mem_cons.mp hx with rfl | hx'
        · exact List.mem_cons_self _ _
        · by_cases hxa : x = a
          · subst hxa
            exact List.mem_cons_self _ _
          · refine List.mem_cons_of_mem _ ((ih (a :: seen) x).mpr ⟨hx', ?_⟩)
            intro hs
            rcases List.mem_cons.mp hs with h' | h'
            · exact hxa h'
            · exact hns h'

theorem nodup_dedupFirstAux (l : List String) :
    ∀ seen : List String, (dedupFirstAux seen l).Nodup := by
  induction l with
  | nil => intro seen; simp [dedupFirstAux]
  | cons a rest ih =>
    intro seen
    by_cases ha : a ∈ seen
    · rw [dedupFirstAux, if_pos ha]
      exact ih seen
    · rw [dedupFirstAux, if_neg ha]
      refine List.nodup_cons.mpr ⟨?_, ih (a :: seen)⟩
      intro hmem
      exact ((mem_dedupFirstAux rest (a :: seen) a).mp hmem).2
        (List.mem_cons_self _ _)

theorem dedupFirstAux_sublist (l : List String) :
    ∀ seen : List String, List.Sublist (dedupFirstAux seen l) l := by
  induction l with
  | nil => intro seen; simp [dedupFirstAux]
  | cons a rest ih =>
    intro seen
    by_cases ha : a ∈ seen
    · rw [dedupFirstAux, if_pos ha]
      exact List.Sublist.cons a (ih seen)
    · rw [dedupFirstAux, if_neg ha]
      exact List.Sublist.cons₂ a (ih (a :: seen))

/-- Claim C8: the handshake issues exactly one subscribe per configured
channel, in configuration order, each carrying that channel's symbol
list, followed by exactly one extra `heartbeat` subscribe whose symbol
list is the duplicate-free (`Nodup`), same-membership, order-preserving
(`Sublist`) reduction of the concatenation of all channels' symbols; on
the spec's example configuration the three concrete messages, signed
fields included, are as listed. -/
theorem c8_subscribe_handshake (hmacHex : String → String → String)
    (ts kid ks : String) (sub : List (String × List String)) :
    (subscribeMsgs hmacHex ts kid ks sub).map
        (fun msg => (msg.channel, msg.product_ids))
      = sub ++ [("heartbeat", dedupFirst (sub.flatMap Prod.snd))] ∧
    (subscribeMsgs hmacHex ts kid ks sub).length = sub.length + 1 ∧
    (dedupFirst (sub.flatMap Prod.snd)).Nodup ∧
    (∀ x, x ∈ dedupFirst (sub.flatMap Prod.snd) ↔ x ∈ sub.flatMap Prod.snd) ∧
    List.Sublist (dedupFirst (sub.flatMap Prod.snd)) (sub.flatMap Prod.snd) ∧
    subscribeMsgs hmacHex ts kid ks
        [("level2", ["S1"]), ("market_trades", ["S1", "S2"])]
      = [{ channel := "level2", product_ids := ["S1"],
           auth := [("api_key", kid), ("timestamp", ts),
                    ("signature", hmacHex ks (ts ++ "level2" ++ "S1"))] },
         { channel := "market_trades", product_ids := ["S1", "S2"],
           auth := [("api_key", kid), ("timestamp", ts),
                    ("signature", hmacHex ks (ts ++ "market_trades" ++ "S1,S2"))] },
         { channel := "heartbeat", product_ids := ["S1", "S2"],
           auth := [("api_key", kid), ("timestamp", ts),
                    ("signature", hmacHex ks (ts ++ "heartbeat" ++ "S1,S2"))] }] := by
  refine ⟨?_, ?_, ?_, ?_, ?_, ?_⟩
  · simp only [subscribeMsgs, List.map_append, List.map_map, List.map_cons,
      List.map_nil, Function.comp]
    induction sub with
    | nil => rfl
    | cons cp rest ih => simpa using ih
  · simp [subscribeMsgs]
  · exact nodup_dedupFirstAux _ []
  · intro x
    rw [dedupFirst, mem_dedupFirstAux]
    simp
  · exact dedupFirstAux_sublist _ []
  · rfl

end Coinbase
